import Mathlib

/-!
# Verification of the gscloud kubernetes credential commands

A shallow embedding of `cmd/kubernetes.go`: the `save-kubeconfig` merge of a
provider-issued credential bundle into a kubeconfig, and the `exec-credential`
plugin flow with its per-cluster file cache (`loadCachedKubeConfig`,
`cacheKubeConfig`, `execCredentialCmd`).

Modelling conventions:
- Time is a `Nat` (an epoch instant; the Go zero `time.Time` is `0`, and
  `metav1.Time.IsZero` on a nil pointer is `true`).  One hour is the constant
  `oneHour`.
- Go byte strings produced by base64 decoding are `List Nat` (byte values).
- The per-cluster cache file for the fixed cluster id is modelled as a
  `CacheContent` value: absent, undecodable, or the decoded JSON record.
- `fmt.Println` writes to standard output, `fmt.Fprintln(os.Stderr, ...)` to
  standard error; both streams are accumulated as lists.
- A Go nil-pointer dereference is modelled as the explicit `LoadResult.panic`
  outcome (the process crashes; nothing further executes).
-/

set_option autoImplicit false

namespace Gscloud

/-- Models Go's `encoding/base64` standard alphabet: the 6-bit value of a
base64 character, `none` for a character outside the alphabet. -/
def b64val (c : Char) : Option Nat :=
  if 'A' ≤ c ∧ c ≤ 'Z' then some (c.toNat - 65)
  else if 'a' ≤ c ∧ c ≤ 'z' then some (c.toNat - 97 + 26)
  else if '0' ≤ c ∧ c ≤ '9' then some (c.toNat - 48 + 52)
  else if c = '+' then some 62
  else if c = '/' then some 63
  else none

/-- Models Go's `base64.StdEncoding.DecodeString` on whitespace-free input:
input is consumed in quads of characters, padding `=` is accepted only at the
end, and the result is `(decoded bytes, ok)`; on corrupt input `ok` is `false`
and the bytes decoded before the corrupt quad are returned (Go returns the
partially decoded prefix together with the error). -/
def b64decodeAux : List Char → List Nat × Bool
  | [] => ([], true)
  | c1 :: c2 :: c3 :: c4 :: rest =>
    match b64val c1, b64val c2 with
    | some v1, some v2 =>
      if c3 = '=' then
        if c4 = '=' ∧ rest = [] then ([v1 * 4 + v2 / 16], true) else ([], false)
      else
        match b64val c3 with
        | some v3 =>
          if c4 = '=' then
            if rest = [] then ([v1 * 4 + v2 / 16, (v2 % 16) * 16 + v3 / 4], true)
            else ([], false)
          else
            match b64val c4 with
            | some v4 =>
              let (bs, ok) := b64decodeAux rest
              ((v1 * 4 + v2 / 16) :: ((v2 % 16) * 16 + v3 / 4) :: ((v3 % 4) * 64 + v4) :: bs, ok)
            | none => ([], false)
        | none => ([], false)
    | _, _ => ([], false)
  | _ => ([], false)

/-- `b64.StdEncoding.DecodeString` as a total-success view: `some bytes` when
the whole input decodes, `none` when Go would return a non-nil error. -/
def b64decode (s : String) : Option (List Nat) :=
  let (bs, ok) := b64decodeAux s.data
  if ok then some bs else none

/-- The repository's `kubeConfig` YAML struct (cluster side), as used by
`saveKubeconfigCmd`: `c.Cluster.Server` and
`c.Cluster.CertificateAuthorityData` (still base64-encoded). -/
structure clusterData where
  server : String
  certificateAuthorityData : String
  deriving DecidableEq, Repr

/-- A named cluster entry of the bundle (`c.Name`, `c.Cluster`). -/
structure clusterEntry where
  name : String
  cluster : clusterData
  deriving DecidableEq, Repr

/-- The bundle's user payload: `u.User.ClientCertificateData` and
`u.User.ClientKeyData`, both base64-encoded. -/
structure userData where
  clientCertificateData : String
  clientKeyData : String
  deriving DecidableEq, Repr

/-- A named user entry of the bundle (`u.Name`, `u.User`). -/
structure userEntry where
  name : String
  user : userData
  deriving DecidableEq, Repr

/-- The credential bundle parsed from the provider response
(`fetchKubeConfigFromProvider` unmarshals the YAML into this shape; the struct
itself lives outside `cmd/kubernetes.go` but its fields are fixed by their
uses there: `Clusters`, `Users`, `CurrentContext`). -/
structure kubeConfig where
  clusters : List clusterEntry
  users : List userEntry
  currentContext : String
  deriving DecidableEq, Repr

/-- `clientcmdapi.Cluster` as populated by the merge: server URL and decoded
certificate-authority bytes. -/
structure Cluster where
  server : String
  certificateAuthorityData : List Nat
  deriving DecidableEq, Repr

/-- `clientcmdapi.ExecConfig`: the exec-plugin reference written in
`--credential-plugin` mode. -/
structure ExecConfig where
  apiVersion : String
  command : String
  args : List String
  deriving DecidableEq, Repr

/-- `clientcmdapi.AuthInfo`, restricted to the fields the merge writes. -/
structure AuthInfo where
  clientCertificate : String := ""
  clientKey : String := ""
  clientCertificateData : List Nat := []
  clientKeyData : List Nat := []
  exec : Option ExecConfig := none
  deriving DecidableEq, Repr

/-- `clientcmdapi.Context`: the cluster/user binding. -/
structure Context where
  cluster : String
  authInfo : String
  deriving DecidableEq, Repr

/-- `clientcmdapi.Config` (the kubeconfig state): name-keyed maps of clusters,
auth infos and contexts, plus the current-context pointer.  Maps are modelled
as functions to `Option`. -/
@[ext]
structure Config where
  clusters : String → Option Cluster
  authInfos : String → Option AuthInfo
  contexts : String → Option Context
  currentContext : String

/-- Go map assignment `m[k] = &v`. -/
def updMap {α : Type} (m : String → Option α) (k : String) (v : α) :
    String → Option α :=
  fun x => if x = k then some v else m x

/-- `clientauth.SchemeGroupVersion.String()` for the v1beta1 client
authentication API. -/
def schemeGroupVersion : String := "client.authentication.k8s.io/v1beta1"

/-- Errors of the `save-kubeconfig` merge: the `Invaild kubeconfig` exit for
an empty bundle, and a base64 decode failure. -/
inductive MergeError where
  | invalidBundle
  | decodeError
  deriving DecidableEq, Repr

/-- The in-memory merge performed by `saveKubeconfigCmd.Run` (lines 67-131):
validate the bundle, decode the certificate-authority data, set the cluster
entry, set the user entry (embedded data or exec-plugin reference according to
`credentialPlugin`), set the context and the current context.  Any
`os.Exit(1)` path of the source is an `Except.error`; `ModifyConfig` runs only
on the `ok` value. -/
def saveKubeconfig (currentKubeConfig : Config) (newKubeConfig : kubeConfig)
    (credentialPlugin : Bool) (cliPath cfgFile account clusterID : String) :
    Except MergeError Config :=
  match newKubeConfig.clusters, newKubeConfig.users with
  | c :: _, u :: _ =>
    match b64decode c.cluster.certificateAuthorityData with
    | none => .error .decodeError
    | some certificateAuthorityData =>
      let cfg1 : Config :=
        { currentKubeConfig with
          clusters := updMap currentKubeConfig.clusters c.name
            { server := c.cluster.server
              certificateAuthorityData := certificateAuthorityData } }
      -- lines 85-88 of the source assign the key data to ClientCertificate and
      -- the certificate data to ClientKey; both branches below overwrite this
      -- entry, so it never reaches the final state.
      let cfg2 : Config :=
        { cfg1 with
          authInfos := updMap cfg1.authInfos u.name
            { clientCertificate := u.user.clientKeyData
              clientKey := u.user.clientCertificateData } }
      let merged : Except MergeError Config :=
        if credentialPlugin then
          .ok { cfg2 with
                authInfos := updMap cfg2.authInfos u.name
                  { exec := some
                      { apiVersion := schemeGroupVersion
                        command := cliPath
                        args := ["--config", cfgFile, "--account", account,
                                 "kubernetes", "cluster", "exec-credential",
                                 "--cluster", clusterID] } } }
        else
          match b64decode u.user.clientCertificateData with
          | none => .error .decodeError
          | some clientCertificateData =>
            match b64decode u.user.clientKeyData with
            | none => .error .decodeError
            | some clientKeyData =>
              .ok { cfg2 with
                    authInfos := updMap cfg2.authInfos u.name
                      { clientCertificateData := clientCertificateData
                        clientKeyData := clientKeyData } }
      merged.map fun cfg3 =>
        { cfg3 with
          contexts := updMap cfg3.contexts newKubeConfig.currentContext
            { cluster := c.name, authInfo := u.name }
          currentContext := newKubeConfig.currentContext }
  | _, _ => .error .invalidBundle

/-- The on-disk effect of one `save-kubeconfig` run: on success
`clientcmd.ModifyConfig` persists the merged config; on any error the process
exits before the write, leaving the kubeconfig file as it was. -/
def runSaveKubeconfig (disk : Config) (newKubeConfig : kubeConfig)
    (credentialPlugin : Bool) (cliPath cfgFile account clusterID : String) :
    Config :=
  match saveKubeconfig disk newKubeConfig credentialPlugin cliPath cfgFile
      account clusterID with
  | .ok cfg => cfg
  | .error _ => disk

/-- `time.Hour` expressed in the model's time unit (seconds). -/
def oneHour : Nat := 3600

/-- `clientauth.ExecCredentialStatus`: decoded client certificate and key
bytes, and the `*metav1.Time` expiration (a nil pointer is `none`). -/
structure ExecCredentialStatus where
  clientCertificateData : List Nat
  clientKeyData : List Nat
  expirationTimestamp : Option Nat
  deriving DecidableEq, Repr

/-- `clientauth.ExecCredential`: the record serialized to the cache file and
to standard output.  `status` is a pointer in Go, hence `Option`. -/
structure ExecCredential where
  kind : String := ""
  apiVersion : String := ""
  status : Option ExecCredentialStatus := none
  deriving DecidableEq, Repr

/-- The state of the per-cluster cache file
`<config-dir>/cache/exec-credential/<clusterID>.json`:
- `absent`: the file does not exist (`os.IsNotExist`);
- `malformed`: the file exists but `json.Decode` into `*ExecCredential`
  fails;
- `record cred`: the file decodes; `record none` is the JSON literal `null`,
  which leaves the decoded `*ExecCredential` pointer nil. -/
inductive CacheContent where
  | absent
  | malformed
  | record (cred : Option ExecCredential)
  deriving DecidableEq, Repr

/-- `metav1.Time.IsZero`, whose receiver is a pointer: `true` on nil and on
the zero time. -/
def timeIsZero : Option Nat → Bool
  | none => true
  | some t => t == 0

/-- Outcome of `loadCachedKubeConfig`: a nil-pointer panic, a returned error,
or `ok cred` for `return cred, nil` (with `ok none` the cache miss). -/
inductive LoadResult where
  | panic
  | parseError
  | ok (cred : Option ExecCredential)
  deriving DecidableEq, Repr

/-- `loadCachedKubeConfig` (lines 284-310) at time `now`, returning the
result together with the cache file's state afterwards:
- missing file: `return nil, nil`, file stays absent;
- undecodable file: `return nil, err` — the file is NOT deleted;
- decoded nil record or nil `Status`: line 302 reads
  `execCredential.Status.ExpirationTimestamp` before the `Status == nil`
  check on line 304, so the process panics with a nil-pointer dereference;
- nil, zero or past expiration timestamp: `os.Remove` then `return nil, err`
  (cache miss, file deleted);
- otherwise: cache hit, the record is returned and the file kept. -/
def loadCachedKubeConfig (file : CacheContent) (now : Nat) :
    LoadResult × CacheContent :=
  match file with
  | .absent => (.ok none, .absent)
  | .malformed => (.parseError, .malformed)
  | .record none => (.panic, file)
  | .record (some execCredential) =>
    match execCredential.status with
    | none => (.panic, file)
    | some status =>
      if timeIsZero status.expirationTimestamp then (.ok none, .absent)
      else
        match status.expirationTimestamp with
        | none => (.ok none, .absent)
        | some t => if t < now then (.ok none, .absent)
                    else (.ok (some execCredential), file)

/-- `cacheKubeConfig` (lines 264-282) for the fixed cluster id: a record with
a zero/unset expiration is not persisted (`return nil`); otherwise the file
is created/truncated and the JSON-encoded record written.  Callers always
pass a record with non-nil `Status` (a nil one would panic at line 265). -/
def cacheKubeConfig (file : CacheContent) (execCredential : ExecCredential) :
    CacheContent :=
  match execCredential.status with
  | none => file
  | some status =>
    if timeIsZero status.expirationTimestamp then file
    else .record (some execCredential)

/-- One item written to standard output: a `fmt.Println` text line or the
indented JSON rendering of an `ExecCredential` (line 213). -/
inductive OutItem where
  | text (s : String)
  | json (cred : ExecCredential)
  deriving DecidableEq, Repr

/-- The observable outcome of one `exec-credential` invocation: the two
output streams, the cache file afterwards, whether
`fetchKubeConfigFromProvider` (the network call) ran, and whether the
process panicked. -/
structure ExecResult where
  stdout : List OutItem
  stderr : List String
  cacheAfter : CacheContent
  fetched : Bool
  panicked : Bool
  deriving DecidableEq, Repr

/-- The message of line 205, printed with `fmt.Println` on two operands
(`Println` separates operands with a space, and the literal itself ends in a
space, hence the two spaces before the account). -/
def noCredentialMessage (account : String) : String :=
  "Error: Could not retrieve kubeconfig from provider for account:  " ++ account

/-- Stand-in text for a base64 `CorruptInputError` printed by lines 179/183
(with `fmt.Println`, i.e. to standard output). -/
def corruptBase64Message : String := "illegal base64 data"

/-- Stand-in text for the error of line 170 (printed to standard error). -/
def loadCacheErrorMessage : String := "could not load cached exec credential"

/-- Lines 174-213 of `execCredentialCmd.Run` after a cache miss: fetch the
bundle from the provider (`fetched := true`); with no users, print the
line-205 error — via `fmt.Println`, i.e. to STANDARD OUTPUT — and return;
otherwise base64-decode the first user's key and certificate (decode errors
are printed to standard output and the partial bytes used), build the
`ExecCredential` with expiration `now + oneHour`, persist it via
`cacheKubeConfig`, and print its JSON to standard output. -/
def execCredentialFetch (file : CacheContent) (now : Nat)
    (newKubeConfig : kubeConfig) (account : String) (stderr0 : List String) :
    ExecResult :=
  match newKubeConfig.users with
  | [] =>
    { stdout := [.text (noCredentialMessage account)]
      stderr := stderr0
      cacheAfter := file
      fetched := true
      panicked := false }
  | u :: _ =>
    let (clientKeyData, keyOk) := b64decodeAux u.user.clientKeyData.data
    let (clientCertificateData, certOk) :=
      b64decodeAux u.user.clientCertificateData.data
    let decodeErrs : List OutItem :=
      (if keyOk then [] else [.text corruptBase64Message]) ++
      (if certOk then [] else [.text corruptBase64Message])
    let execCredential : ExecCredential :=
      { kind := "ExecCredential"
        apiVersion := schemeGroupVersion
        status := some
          { clientKeyData := clientKeyData
            clientCertificateData := clientCertificateData
            expirationTimestamp := some (now + oneHour) } }
    { stdout := decodeErrs ++ [.json execCredential]
      stderr := stderr0
      cacheAfter := cacheKubeConfig file execCredential
      fetched := true
      panicked := false }

/-- `execCredentialCmd.Run` (lines 154-215) for a fixed cluster id, at time
`now`, with `providerBundle` the bundle the provider would return if fetched:
load the cache; on a panic the process crashes with nothing printed; on a
load error print it to standard error and fall through to the fetch path (the
credential is nil); on a cache hit print the cached record's JSON to standard
output without fetching. -/
def execCredentialCmd (cache : CacheContent) (now : Nat)
    (providerBundle : kubeConfig) (account : String) : ExecResult :=
  match loadCachedKubeConfig cache now with
  | (.panic, f) =>
    { stdout := [], stderr := [], cacheAfter := f, fetched := false,
      panicked := true }
  | (.parseError, f) =>
    execCredentialFetch f now providerBundle account [loadCacheErrorMessage]
  | (.ok none, f) =>
    execCredentialFetch f now providerBundle account []
  | (.ok (some execCredential), f) =>
    { stdout := [.json execCredential]
      stderr := []
      cacheAfter := f
      fetched := false
      panicked := false }

/-- Whether a merge result is a success. -/
def mergeOk : Except MergeError Config → Bool
  | .ok _ => true
  | .error _ => false

/-- A kubeconfig state with no entries. -/
def emptyConfig : Config :=
  { clusters := fun _ => none
    authInfos := fun _ => none
    contexts := fun _ => none
    currentContext := "" }

/-- A bundle with no clusters and no users. -/
def emptyBundle : kubeConfig :=
  { clusters := [], users := [], currentContext := "" }

/-- A decoded record with `status` absent (the JSON document `{}`). -/
def nilStatusCred : ExecCredential :=
  { kind := "ExecCredential"
    apiVersion := schemeGroupVersion
    status := none }

/-- A cached record whose expiration timestamp is the instant `5`. -/
def cred5 : ExecCredential :=
  { kind := "ExecCredential"
    apiVersion := schemeGroupVersion
    status := some
      { clientCertificateData := [1]
        clientKeyData := [2]
        expirationTimestamp := some 5 } }

/-- A valid one-cluster, one-user bundle (`"QUJD"`/`"REVG"` are well-formed
base64 for `ABC`/`DEF`). -/
def sampleBundle : kubeConfig :=
  { clusters := [⟨"cl", ⟨"https://x", "QUJD"⟩⟩]
    users := [⟨"us", ⟨"QUJD", "REVG"⟩⟩]
    currentContext := "ctx" }

/-- A bundle whose client-key field `"!"` is malformed base64 (the other
fields are well-formed). -/
def badKeyBundle : kubeConfig :=
  { clusters := [⟨"cl", ⟨"https://x", "QUJD"⟩⟩]
    users := [⟨"us", ⟨"QUJD", "!"⟩⟩]
    currentContext := "ctx" }

/-- A bundle whose certificate-authority field `"!"` is malformed base64. -/
def badCABundle : kubeConfig :=
  { clusters := [⟨"cl", ⟨"https://x", "!"⟩⟩]
    users := [⟨"us", ⟨"QUJD", "REVG"⟩⟩]
    currentContext := "ctx" }

/-- Overwriting the same key twice keeps only the last value. -/
theorem updMap_override {α : Type} (m : String → Option α) (k : String)
    (v1 v2 : α) : updMap (updMap m k v1) k v2 = updMap m k v2 := by
  funext x
  by_cases h : x = k <;> simp [updMap, h]

/-- C1: the claim says a failed `exec-credential` invocation prints nothing
to standard output.  The code violates this: with an absent cache and a
provider bundle with no users, line 205 prints the "could not retrieve"
error with `fmt.Println`, i.e. to standard output (the stream reserved for
the JSON document that `kubectl` parses). -/
theorem execCredential_failure_prints_to_stdout :
    (execCredentialCmd CacheContent.absent 100 emptyBundle "acc").stdout =
      [OutItem.text (noCredentialMessage "acc")] ∧
    (execCredentialCmd CacheContent.absent 100 emptyBundle "acc").stderr = [] := by
  constructor <;> rfl

/-- C2: the claim says reading any cache file content returns gracefully and
never crashes.  The code violates this: a well-formed JSON record whose
`status` field is absent is dereferenced on line 302 before the nil check on
line 304, so the process panics. -/
theorem loadCachedKubeConfig_nilStatus_panics :
    loadCachedKubeConfig (CacheContent.record (some nilStatusCred)) 100 =
      (LoadResult.panic, CacheContent.record (some nilStatusCred)) := rfl

/-- C3 counterexample: reading exactly at the expiration instant `t = 5` is a
cache HIT (the code expires only strictly past `t`, via
`timeStamp.Time.Before(time.Now())`), while the claim requires a cache miss
and deletion at any time at or after `t`. -/
theorem loadCachedKubeConfig_at_expiry_is_hit :
    loadCachedKubeConfig (CacheContent.record (some cred5)) 5 =
      (LoadResult.ok (some cred5), CacheContent.record (some cred5)) ∧
    loadCachedKubeConfig (CacheContent.record (some cred5)) 5 ≠
      (LoadResult.ok none, CacheContent.absent) := by
  constructor
  · rfl
  · decide

/-- C3 (amended): for a cache entry with expiration timestamp `t`, reading at
or before a nonzero `t` returns the cached value unchanged; reading strictly
after `t`, or when `t` is zero/unset, returns a cache miss and deletes the
file. -/
theorem loadCachedKubeConfig_expiry (cred : ExecCredential)
    (st : ExecCredentialStatus) (t now : Nat)
    (hs : cred.status = some st) (ht : st.expirationTimestamp = some t) :
    (t ≠ 0 → ¬ t < now →
      loadCachedKubeConfig (CacheContent.record (some cred)) now =
        (LoadResult.ok (some cred), CacheContent.record (some cred))) ∧
    ((t = 0 ∨ t < now) →
      loadCachedKubeConfig (CacheContent.record (some cred)) now =
        (LoadResult.ok none, CacheContent.absent)) := by
  obtain ⟨kind, apiVersion, status⟩ := cred
  simp only at hs
  subst hs
  constructor
  · intro h0 hlt
    simp [loadCachedKubeConfig, timeIsZero, ht, h0, hlt]
  · intro h
    rcases h with h0 | hlt
    · subst h0
      simp [loadCachedKubeConfig, timeIsZero, ht]
    · by_cases h0 : t = 0
      · subst h0
        simp [loadCachedKubeConfig, timeIsZero, ht]
      · simp [loadCachedKubeConfig, timeIsZero, ht, h0, hlt]

/-- Witness for `loadCachedKubeConfig_expiry` at the concrete record `cred5`
(`t = 5`): a hit at time 3, a miss with deletion at time 7. -/
theorem loadCachedKubeConfig_expiry_witness :
    loadCachedKubeConfig (CacheContent.record (some cred5)) 3 =
      (LoadResult.ok (some cred5), CacheContent.record (some cred5)) ∧
    loadCachedKubeConfig (CacheContent.record (some cred5)) 7 =
      (LoadResult.ok none, CacheContent.absent) :=
  ⟨(loadCachedKubeConfig_expiry cred5 _ 5 3 rfl rfl).1 (by decide) (by decide),
   (loadCachedKubeConfig_expiry cred5 _ 5 7 rfl rfl).2 (Or.inr (by decide))⟩

/-- C4 counterexample: a cache file whose contents fail to parse is NOT
deleted — `loadCachedKubeConfig` returns the decode error and leaves the
file in place, while the claim requires deletion of any stale or corrupt
file on detection. -/
theorem loadCachedKubeConfig_malformed_not_deleted :
    loadCachedKubeConfig CacheContent.malformed 100 =
      (LoadResult.parseError, CacheContent.malformed) ∧
    CacheContent.malformed ≠ CacheContent.absent := by
  constructor
  · rfl
  · decide

/-- C4 (amended): only stale entries self-heal — an entry whose expiration is
unset, zero, or in the past is deleted on detection; a cache file whose
contents fail to decode is not deleted: the parse error is returned and the
file remains in place. -/
theorem loadCachedKubeConfig_selfHealing (now : Nat) (cred : ExecCredential)
    (st : ExecCredentialStatus) (hs : cred.status = some st)
    (hstale : st.expirationTimestamp = none ∨ st.expirationTimestamp = some 0 ∨
      ∃ t, st.expirationTimestamp = some t ∧ t < now) :
    loadCachedKubeConfig (CacheContent.record (some cred)) now =
      (LoadResult.ok none, CacheContent.absent) ∧
    loadCachedKubeConfig CacheContent.malformed now =
      (LoadResult.parseError, CacheContent.malformed) := by
  obtain ⟨kind, apiVersion, status⟩ := cred
  simp only at hs
  subst hs
  refine ⟨?_, rfl⟩
  rcases hstale with h | h | ⟨t, ht, hlt⟩
  · simp [loadCachedKubeConfig, timeIsZero, h]
  · simp [loadCachedKubeConfig, timeIsZero, h]
  · by_cases h0 : t = 0
    · subst h0
      simp [loadCachedKubeConfig, timeIsZero, ht]
    · simp [loadCachedKubeConfig, timeIsZero, ht, h0, hlt]

/-- Witness for `loadCachedKubeConfig_selfHealing`: the record `cred5`
(expiration 5) read at time 9 is deleted, and a malformed file read at time 9
is kept. -/
theorem loadCachedKubeConfig_selfHealing_witness :
    loadCachedKubeConfig (CacheContent.record (some cred5)) 9 =
      (LoadResult.ok none, CacheContent.absent) ∧
    loadCachedKubeConfig CacheContent.malformed 9 =
      (LoadResult.parseError, CacheContent.malformed) :=
  loadCachedKubeConfig_selfHealing 9 cred5 _ rfl
    (Or.inr (Or.inr ⟨5, rfl, by decide⟩))

/-- C5: a bundle with zero clusters or zero users makes the merge fail with
the invalid-bundle error, and on any failure of the merge (validation or
decode) the kubeconfig file is left exactly as it was — the process exits
before `ModifyConfig` runs. -/
theorem saveKubeconfig_invalid_writes_nothing (current disk : Config)
    (b : kubeConfig) (m : Bool) (cli cfg acc id : String) :
    (b.clusters = [] ∨ b.users = [] →
      saveKubeconfig current b m cli cfg acc id = .error .invalidBundle) ∧
    (∀ e, saveKubeconfig disk b m cli cfg acc id = .error e →
      runSaveKubeconfig disk b m cli cfg acc id = disk) := by
  constructor
  · intro h
    obtain ⟨cs, us, ctx⟩ := b
    simp only at h
    rcases h with h | h
    · subst h
      cases us <;> rfl
    · subst h
      cases cs <;> rfl
  · intro e h
    simp [runSaveKubeconfig, h]

/-- Witness for `saveKubeconfig_invalid_writes_nothing` at the empty bundle:
the merge fails with `invalidBundle` and the on-disk state is unchanged. -/
theorem saveKubeconfig_invalid_writes_nothing_witness :
    saveKubeconfig emptyConfig emptyBundle false "p" "f" "a" "i" =
      .error .invalidBundle ∧
    runSaveKubeconfig emptyConfig emptyBundle false "p" "f" "a" "i" =
      emptyConfig :=
  ⟨(saveKubeconfig_invalid_writes_nothing emptyConfig emptyConfig emptyBundle
      false "p" "f" "a" "i").1 (Or.inl rfl),
   (saveKubeconfig_invalid_writes_nothing emptyConfig emptyConfig emptyBundle
      false "p" "f" "a" "i").2 MergeError.invalidBundle
     ((saveKubeconfig_invalid_writes_nothing emptyConfig emptyConfig
        emptyBundle false "p" "f" "a" "i").1 (Or.inl rfl))⟩

/-- C6: on a cache miss (absent cache file), a fetched bundle with at least
one user yields a credential-status record whose expiration is exactly
`now + oneHour`, whose key/cert fields are the base64-decoded data of the
first user; the record is persisted to the per-cluster cache file, and its
JSON rendering is the last item printed to standard output. -/
theorem execCredential_cacheMiss_fetches (now : Nat) (b : kubeConfig)
    (u : userEntry) (us : List userEntry) (account : String)
    (hu : b.users = u :: us) :
    ∃ st : ExecCredentialStatus,
      st.expirationTimestamp = some (now + oneHour) ∧
      st.clientKeyData = (b64decodeAux u.user.clientKeyData.data).1 ∧
      st.clientCertificateData =
        (b64decodeAux u.user.clientCertificateData.data).1 ∧
      (execCredentialCmd CacheContent.absent now b account).fetched = true ∧
      (execCredentialCmd CacheContent.absent now b account).cacheAfter =
        CacheContent.record
          (some ⟨"ExecCredential", schemeGroupVersion, some st⟩) ∧
      (execCredentialCmd CacheContent.absent now b account).stdout.getLast? =
        some (OutItem.json
          ⟨"ExecCredential", schemeGroupVersion, some st⟩) := by
  obtain ⟨bc, bu, bctx⟩ := b
  simp only at hu
  subst hu
  have hexp : now + oneHour ≠ 0 := by simp [oneHour]
  refine ⟨⟨(b64decodeAux u.user.clientCertificateData.data).1,
           (b64decodeAux u.user.clientKeyData.data).1,
           some (now + oneHour)⟩, rfl, rfl, rfl, ?_, ?_, ?_⟩
  · rfl
  · simp [execCredentialCmd, loadCachedKubeConfig, execCredentialFetch,
      cacheKubeConfig, timeIsZero, hexp]
  · simp only [execCredentialCmd, loadCachedKubeConfig, execCredentialFetch]
    rw [List.getLast?_append_cons]
    rfl

/-- Witness for `execCredential_cacheMiss_fetches` at time 0 with a concrete
one-user bundle. -/
theorem execCredential_cacheMiss_fetches_witness :
    ∃ st : ExecCredentialStatus,
      st.expirationTimestamp = some (0 + oneHour) ∧
      st.clientKeyData = (b64decodeAux ("REVG" : String).data).1 ∧
      st.clientCertificateData = (b64decodeAux ("QUJD" : String).data).1 ∧
      (execCredentialCmd CacheContent.absent 0 sampleBundle "a").fetched =
        true ∧
      (execCredentialCmd CacheContent.absent 0 sampleBundle "a").cacheAfter =
        CacheContent.record
          (some ⟨"ExecCredential", schemeGroupVersion, some st⟩) ∧
      (execCredentialCmd CacheContent.absent 0 sampleBundle "a").stdout.getLast? =
        some (OutItem.json ⟨"ExecCredential", schemeGroupVersion, some st⟩) :=
  execCredential_cacheMiss_fetches 0 sampleBundle
    ⟨"us", ⟨"QUJD", "REVG"⟩⟩ [] "a" rfl

/-- C7 counterexample: in exec-plugin mode a malformed base64 client key
(`"!"`) does NOT fail the merge — the client certificate and key are never
decoded on that path, so the merge succeeds. -/
theorem saveKubeconfig_plugin_ignores_malformed_key :
    b64decode "!" = none ∧
    mergeOk (saveKubeconfig emptyConfig badKeyBundle true "p" "f" "a" "i") =
      true := by
  constructor <;> rfl

/-- C7 (amended): a malformed certificate-authority field fails the merge
with a decode error in both modes; malformed client-certificate or
client-key fields fail the merge only in embedded mode (exec-plugin mode
never decodes them). -/
theorem saveKubeconfig_decode_failures (current : Config) (b : kubeConfig)
    (c : clusterEntry) (cs : List clusterEntry) (u : userEntry)
    (us : List userEntry) (cli cfg acc id : String)
    (hc : b.clusters = c :: cs) (hu : b.users = u :: us) :
    (∀ m, b64decode c.cluster.certificateAuthorityData = none →
      saveKubeconfig current b m cli cfg acc id = .error .decodeError) ∧
    ((b64decode c.cluster.certificateAuthorityData = none ∨
      b64decode u.user.clientCertificateData = none ∨
      b64decode u.user.clientKeyData = none) →
      saveKubeconfig current b false cli cfg acc id =
        .error .decodeError) := by
  obtain ⟨bc, bu, bctx⟩ := b
  simp only at hc hu
  subst hc
  subst hu
  constructor
  · intro m hca
    simp [saveKubeconfig, hca, Except.map]
  · intro h
    rcases h with hca | hcert | hkey
    · simp [saveKubeconfig, hca, Except.map]
    · cases hca : b64decode c.cluster.certificateAuthorityData with
      | none => simp [saveKubeconfig, hca, Except.map]
      | some ca => simp [saveKubeconfig, hca, hcert, Except.map]
    · cases hca : b64decode c.cluster.certificateAuthorityData with
      | none => simp [saveKubeconfig, hca, Except.map]
      | some ca =>
        cases hcert : b64decode u.user.clientCertificateData with
        | none => simp [saveKubeconfig, hca, hcert, Except.map]
        | some cd => simp [saveKubeconfig, hca, hcert, hkey, Except.map]

/-- Witness for `saveKubeconfig_decode_failures` at a bundle whose
certificate-authority field is the malformed string `"!"`. -/
theorem saveKubeconfig_decode_failures_witness :
    saveKubeconfig emptyConfig badCABundle true "p" "f" "a" "i" =
      .error .decodeError ∧
    saveKubeconfig emptyConfig badCABundle false "p" "f" "a" "i" =
      .error .decodeError :=
  ⟨(saveKubeconfig_decode_failures emptyConfig badCABundle _ [] _ [] "p" "f"
      "a" "i" rfl rfl).1 true rfl,
   (saveKubeconfig_decode_failures emptyConfig badCABundle _ [] _ [] "p" "f"
      "a" "i" rfl rfl).2 (Or.inl rfl)⟩

/-- Merging any bundle twice has the same on-disk effect as merging it once:
the merge only overwrites fixed keys with values computed from the bundle and
the invocation arguments, never from the previous state, and its error paths
leave the file untouched. -/
theorem runSaveKubeconfig_idem (disk : Config) (b : kubeConfig) (m : Bool)
    (cli cfg acc id : String) :
    runSaveKubeconfig (runSaveKubeconfig disk b m cli cfg acc id) b m cli cfg
        acc id =
      runSaveKubeconfig disk b m cli cfg acc id := by
  obtain ⟨bc, bu, bctx⟩ := b
  cases bc with
  | nil => rfl
  | cons c cs =>
    cases bu with
    | nil => rfl
    | cons u us =>
      cases hca : b64decode c.cluster.certificateAuthorityData with
      | none => simp [runSaveKubeconfig, saveKubeconfig, hca, Except.map]
      | some ca =>
        cases m with
        | true =>
          simp only [runSaveKubeconfig, saveKubeconfig, hca, Except.map]
          ext x <;> simp [updMap_override]
        | false =>
          cases hcert : b64decode u.user.clientCertificateData with
          | none => simp [runSaveKubeconfig, saveKubeconfig, hca, hcert, Except.map]
          | some cd =>
            cases hkey : b64decode u.user.clientKeyData with
            | none => simp [runSaveKubeconfig, saveKubeconfig, hca, hcert, hkey, Except.map]
            | some kd =>
              simp only [runSaveKubeconfig, saveKubeconfig, hca, hcert, hkey,
                Except.map]
              ext x <;> simp [updMap_override]

/-- C8: merging a valid bundle (at least one cluster and one user) twice in
succession, in the same mode and with the same arguments, yields the same
final kubeconfig state as merging it once. -/
theorem saveKubeconfig_merge_idempotent (disk : Config) (b : kubeConfig)
    (m : Bool) (cli cfg acc id : String) (_hc : b.clusters ≠ [])
    (_hu : b.users ≠ []) :
    runSaveKubeconfig (runSaveKubeconfig disk b m cli cfg acc id) b m cli cfg
        acc id =
      runSaveKubeconfig disk b m cli cfg acc id :=
  runSaveKubeconfig_idem disk b m cli cfg acc id

/-- Witness for `saveKubeconfig_merge_idempotent` on a concrete valid bundle
in embedded mode. -/
theorem saveKubeconfig_merge_idempotent_witness :
    sampleBundle.clusters ≠ [] ∧ sampleBundle.users ≠ [] ∧
    runSaveKubeconfig
        (runSaveKubeconfig emptyConfig sampleBundle false "p" "f" "a" "i")
        sampleBundle false "p" "f" "a" "i" =
      runSaveKubeconfig emptyConfig sampleBundle false "p" "f" "a" "i" :=
  ⟨by decide, by decide,
   saveKubeconfig_merge_idempotent emptyConfig sampleBundle false "p" "f" "a"
     "i" (by decide) (by decide)⟩

/-- C9: with the cache file present and its expiration strictly in the
future, `exec-credential` prints exactly the cached record's JSON to standard
output, leaves the cache file unchanged, and never calls the provider
(`fetched = false`). -/
theorem execCredential_cacheHit_noFetch (cred : ExecCredential)
    (st : ExecCredentialStatus) (t now : Nat) (b : kubeConfig)
    (account : String) (hs : cred.status = some st)
    (ht : st.expirationTimestamp = some t) (hfut : now < t) :
    execCredentialCmd (CacheContent.record (some cred)) now b account =
      { stdout := [OutItem.json cred], stderr := [],
        cacheAfter := CacheContent.record (some cred), fetched := false,
        panicked := false } := by
  obtain ⟨kind, apiVersion, status⟩ := cred
  simp only at hs
  subst hs
  have h0 : t ≠ 0 := by omega
  have hlt : ¬ t < now := by omega
  simp [execCredentialCmd, loadCachedKubeConfig, timeIsZero, ht, h0, hlt]

/-- Witness for `execCredential_cacheHit_noFetch`: the record `cred5`
(expiration 5) read at time 2 is served without a fetch. -/
theorem execCredential_cacheHit_noFetch_witness :
    execCredentialCmd (CacheContent.record (some cred5)) 2 sampleBundle "a" =
      { stdout := [OutItem.json cred5], stderr := [],
        cacheAfter := CacheContent.record (some cred5), fetched := false,
        panicked := false } :=
  execCredential_cacheHit_noFetch cred5 _ 5 2 sampleBundle "a" rfl rfl
    (by decide)

/-- C10: the merge reads only `Clusters[0]` and `Users[0]` of the fetched
bundle — merging a bundle with extra cluster or user entries is literally the
same computation as merging the bundle truncated to its first cluster and
first user, so the extra entries are silently ignored. -/
theorem saveKubeconfig_first_entries_only (current : Config)
    (c : clusterEntry) (cs : List clusterEntry) (u : userEntry)
    (us : List userEntry) (ctx : String) (m : Bool)
    (cli cfg acc id : String) :
    saveKubeconfig current ⟨c :: cs, u :: us, ctx⟩ m cli cfg acc id =
      saveKubeconfig current ⟨[c], [u], ctx⟩ m cli cfg acc id := rfl

end Gscloud
